import Mathlib

/-!
Verification of the pylusol binding (src/pylusol/lusol.py, src/pylusol/clusol.py).

The Python layer is a thin wrapper over the native LUSOL routines
(clu1fac, clu6sol, clu6mul, clu8rpc).  The native routines are not part of
this repository's sources, so they are modelled as abstract function
parameters ("oracles"): each wrapper method is embedded as a Lean function
that takes the native routine's behaviour as an argument and reproduces the
wrapper's own control flow (dimension checks, raise-on-nonzero-inform,
choice of returned buffer) exactly as written in lusol.py.

Real (float64) values are modelled as exact rationals; no claim below
depends on floating-point rounding.  Python exceptions are modelled with
`Except String`.
-/

/-- A matrix in COO form as seen by `LUSOL.__init__` after `tocoo()`:
dimensions and a list of (row, col, value) triplets with 0-based indices. -/
structure CooMatrix where
  m : Nat
  n : Nat
  entries : List (Nat × Nat × Rat)
deriving Repr, DecidableEq

/-- The fields of a `LUSOL` handle, mirroring the attributes assigned in
`LUSOL.__init__` (lusol.py lines 54-90). -/
structure LUSOLState where
  m : Nat
  n : Nat
  nelem : Nat
  lena : Nat
  luparm : List Int
  parmlu : List Rat
  a : List Rat
  indc : List Int
  indr : List Int
  p : List Int
  q : List Int
  lenc : List Int
  lenr : List Int
  locc : List Int
  locr : List Int
  iploc : List Int
  iqloc : List Int
  ipinv : List Int
  iqinv : List Int
  w : List Rat
deriving Repr, DecidableEq

/-- Default integer parameters: `np.zeros(30)` followed by the assignments in
`LUSOL._set_default_parameters` (lusol.py lines 105-109). -/
def defaultLuparm : List Int :=
  (((((List.replicate 30 (0 : Int)).set 0 0).set 1 10).set 2 5).set 5 0).set 7 1

/-- Default real parameters: `np.zeros(30)` followed by the assignments in
`LUSOL._set_default_parameters` (lusol.py lines 112-119); the float
constants 1e-13, 1e-11, 0.3, 0.5 are modelled as exact rationals. -/
def defaultParmlu : List Rat :=
  ((((((((List.replicate 30 (0 : Rat)).set 0 10).set 1 10).set 2
    (1 / 10 ^ 13)).set 3 (1 / 10 ^ 11)).set 4 (1 / 10 ^ 11)).set 5 3).set 6
    (3 / 10)).set 7 (1 / 2)

/-- The packed value array after the copy loop of `LUSOL.__init__`
(lusol.py lines 94-95): a zero array of length `lena` whose first `nnz`
slots are overwritten with the triplet values. -/
def packValues (entries : List (Nat × Nat × Rat)) (lena : Nat) : List Rat :=
  entries.map (fun e => e.2.2) ++ List.replicate (lena - entries.length) 0

/-- The packed `indc` array after the copy loop (lusol.py line 96):
ROW indices, converted to 1-based. -/
def packIndc (entries : List (Nat × Nat × Rat)) (lena : Nat) : List Int :=
  entries.map (fun e => (e.1 : Int) + 1) ++ List.replicate (lena - entries.length) 0

/-- The packed `indr` array after the copy loop (lusol.py line 97):
COLUMN indices, converted to 1-based. -/
def packIndr (entries : List (Nat × Nat × Rat)) (lena : Nat) : List Int :=
  entries.map (fun e => (e.2.1 : Int) + 1) ++ List.replicate (lena - entries.length) 0

/-- The state assembled by `LUSOL.__init__` (lusol.py lines 54-97) just before
it invokes `_factorize`: dimensions, `lena = max(nelem * 3, 10000)`, default
parameter blocks, packed triplet arrays, and zeroed work arrays. -/
def initState (A : CooMatrix) : LUSOLState :=
  { m := A.m
    n := A.n
    nelem := A.entries.length
    lena := max (A.entries.length * 3) 10000
    luparm := defaultLuparm
    parmlu := defaultParmlu
    a := packValues A.entries (max (A.entries.length * 3) 10000)
    indc := packIndc A.entries (max (A.entries.length * 3) 10000)
    indr := packIndr A.entries (max (A.entries.length * 3) 10000)
    p := List.replicate A.m 0
    q := List.replicate A.n 0
    lenc := List.replicate A.n 0
    lenr := List.replicate A.m 0
    locc := List.replicate A.n 0
    locr := List.replicate A.m 0
    iploc := List.replicate A.m 0
    iqloc := List.replicate A.n 0
    ipinv := List.replicate A.m 0
    iqinv := List.replicate A.n 0
    w := List.replicate A.n 0 }

/-- `LUSOL._factorize` (lusol.py lines 121-150): run the native `clu1fac`
(modelled as an oracle mapping the pre-call state to the post-call state and
the `inform` status) and raise `RuntimeError` if `inform` is nonzero;
otherwise the handle is the post-call state. -/
def lusolFactorize (clu1fac : LUSOLState → LUSOLState × Int) (st : LUSOLState) :
    Except String LUSOLState :=
  if (clu1fac st).2 ≠ 0 then
    Except.error "LU factorization failed with inform nonzero"
  else
    Except.ok (clu1fac st).1

/-- `LUSOL.__init__` end to end (lusol.py lines 44-100): assemble the state
from the matrix, then perform the factorization as the last step. -/
def mkLUSOL (A : CooMatrix) (clu1fac : LUSOLState → LUSOLState × Int) :
    Except String LUSOLState :=
  lusolFactorize clu1fac (initState A)

/-- Output of the native `clu6sol` call: the contents of the `v` and `w`
buffers after the call, and the `inform` status it wrote. -/
structure SolOut where
  v : List Rat
  w : List Rat
  inform : Int
deriving Repr, DecidableEq

/-- `LUSOL.solve` (lusol.py lines 152-206): reject with `ValueError` when the
right-hand side's length differs from `self.m` (the check is the same for
every mode); otherwise call the native `clu6sol` (an oracle taking the mode,
the copied `v = b` buffer and the zeroed `w` buffer of length `n`), raise
`RuntimeError` on nonzero `inform`, and return the `w` buffer for modes 5
and 6 and the `v` buffer otherwise. -/
def lusolSolve (st : LUSOLState) (clu6sol : Int → List Rat → List Rat → SolOut)
    (b : List Rat) (mode : Int) : Except String (List Rat) :=
  if b.length ≠ st.m then
    Except.error "RHS vector size does not match matrix rows"
  else
    if (clu6sol mode b (List.replicate st.n 0)).inform ≠ 0 then
      Except.error "Solve failed with inform nonzero"
    else
      Except.ok (if mode = 5 ∨ mode = 6 then (clu6sol mode b (List.replicate st.n 0)).w
                 else (clu6sol mode b (List.replicate st.n 0)).v)

/-- `LUSOL.mulA` (lusol.py lines 208-249): copy `x` into `v`, allocate `w` of
length `m` when mode is 1 and `n` otherwise, call the native `clu6mul` (an
oracle returning the post-call `v` and `w` buffers; it has no `inform`
output), and return `w`.  No status check and no exception on any path. -/
def mulA (st : LUSOLState) (clu6mul : Int → List Rat → List Rat → List Rat × List Rat)
    (x : List Rat) (mode : Int) : List Rat :=
  (clu6mul mode x (List.replicate (if mode = 1 then st.m else st.n) 0)).2

/-- Output of the native `clu8rpc` call: the `inform` status and the `diag`
and `vnorm` diagnostic scalars it wrote. -/
structure RpcOut where
  inform : Int
  diag : Rat
  vnorm : Rat
deriving Repr, DecidableEq

/-- `LUSOL.repcol` (lusol.py lines 251-302): call the native `clu8rpc` (an
oracle taking mode1, mode2, the new column `v` and the target index `jrep`)
and return `inform.value` — only the status code; the `diag` and `vnorm`
scalars the native routine wrote are local variables that are discarded. -/
def repcol (st : LUSOLState) (clu8rpc : Int → Int → List Rat → Int → RpcOut)
    (v : List Rat) (jrep : Int) (mode1 : Int) (mode2 : Int) : Int :=
  (clu8rpc mode1 mode2 v jrep).inform

/-- The dictionary returned by `LUSOL.get_stats` (lusol.py lines 304-318). -/
structure LUStats where
  nelem : Int
  nrank : Int
  nsing : Int
  growth : Rat
deriving Repr, DecidableEq

/-- `LUSOL.get_stats` (lusol.py lines 304-318): build the statistics
dictionary from `luparm[11]`, `luparm[15]`, `luparm[10]` and `parmlu[15]`. -/
def get_stats (st : LUSOLState) : LUStats :=
  { nelem := st.luparm.getD 11 0
    nrank := st.luparm.getD 15 0
    nsing := st.luparm.getD 10 0
    growth := st.parmlu.getD 15 0 }

/-- `LUSOL.get_stats` as a method call in stateful reading: the body of the
method contains no assignment to any attribute of `self`, so the handle
after the call is the handle before it. -/
def get_stats_call (st : LUSOLState) : LUStats × LUSOLState :=
  (get_stats st, st)

/-- The argument list of `clusol._clusol.clu6mul.argtypes`
(clusol.py lines 184-202), by parameter name. -/
def clu6mul_argtypes : List String :=
  ["mode", "m", "n", "v", "w", "lena", "luparm", "parmlu", "a", "indc", "indr",
   "p", "q", "lenc", "lenr", "locc", "locr"]

/-- The argument list of `clusol._clusol.clu6sol.argtypes`
(clusol.py lines 132-151), by parameter name. -/
def clu6sol_argtypes : List String :=
  ["mode", "m", "n", "v", "w", "lena", "luparm", "parmlu", "a", "indc", "indr",
   "p", "q", "lenc", "lenr", "locc", "locr", "inform"]

/-- Modelled from the spec: the right-hand-side dimension each solve mode
requires, for the native solver contract that is not under src.  Spec §4.4:
modes 1 and 2 substitute with the m-by-m factor L, so the vector has length
m; mode 3 solves U w = v consuming v of length m; mode 5 solves A x = b with
b in the row space, length m; mode 4 solves Uᵀ v = w consuming w of length
n; mode 6 solves Aᵀ x = b, and Aᵀ is n-by-m, so b has length n. -/
def specRequiredDim (m n : Nat) (mode : Int) : Nat :=
  if mode = 4 ∨ mode = 6 then n else m

/-- A concrete rectangular test fixture (2 rows, 3 columns) used by witnesses
and counterexamples; only the dimension fields matter to the wrapper's
control flow. -/
def testState (m n : Nat) : LUSOLState :=
  { m := m
    n := n
    nelem := 0
    lena := 10000
    luparm := defaultLuparm
    parmlu := defaultParmlu
    a := []
    indc := []
    indr := []
    p := []
    q := []
    lenc := []
    lenr := []
    locc := []
    locr := []
    iploc := []
    iqloc := []
    ipinv := []
    iqinv := []
    w := [] }

/-- A concrete 1-by-1 matrix with a single nonzero, used by witnesses and
counterexamples. -/
def exMat1 : CooMatrix :=
  { m := 1, n := 1, entries := [(0, 0, (5 : Rat))] }

/-- A native-solve oracle that reports success and leaves both buffers as it
received them, used by witnesses. -/
def okSolOracle : Int → List Rat → List Rat → SolOut :=
  fun _ v w => { v := v, w := w, inform := 0 }

/-- Helper: indexing the packed prefix of a map-then-pad array retrieves the
mapped source entry, for every padding tail. -/
theorem getElem?_map_append {α β : Type} (f : α → β) (l : List α) (t : List β)
    (i : Nat) (e : α) (h : l[i]? = some e) :
    (l.map f ++ t)[i]? = some (f e) := by
  have hi : i < l.length := (List.getElem?_eq_some_iff.mp h).1
  rw [List.getElem?_append_left (by simpa using hi), List.getElem?_map, h]
  rfl

/-- Claim C2: for every input matrix, the packed factor storage capacity
`lena` allocated at construction equals max(3 * nnz, 10000): at least three
times the nonzero count, with a floor of 10,000. -/
theorem C2_lena_formula (A : CooMatrix) :
    (initState A).lena = max (3 * A.entries.length) 10000 ∧
    3 * A.entries.length ≤ (initState A).lena ∧
    10000 ≤ (initState A).lena := by
  refine ⟨by simp [initState, Nat.mul_comm], ?_, ?_⟩
  · show 3 * A.entries.length ≤ max (A.entries.length * 3) 10000
    rw [Nat.mul_comm]
    exact Nat.le_max_left _ _
  · exact Nat.le_max_right _ _

/-- Claim C7: the boundary conversion from the 0-based internal triplets to
the 1-based wire contract is exact: for each triplet index below nnz, the
packed value array holds the triplet's value, `indc` holds the 0-based row
plus 1, and `indr` holds the 0-based column plus 1. -/
theorem C7_boundary_conversion (A : CooMatrix) (i : Nat) (e : Nat × Nat × Rat)
    (h : A.entries[i]? = some e) :
    (initState A).a[i]? = some e.2.2 ∧
    (initState A).indc[i]? = some ((e.1 : Int) + 1) ∧
    (initState A).indr[i]? = some ((e.2.1 : Int) + 1) := by
  refine ⟨?_, ?_, ?_⟩
  · show (packValues A.entries _)[i]? = _
    exact getElem?_map_append _ _ _ i e h
  · show (packIndc A.entries _)[i]? = _
    exact getElem?_map_append _ _ _ i e h
  · show (packIndr A.entries _)[i]? = _
    exact getElem?_map_append _ _ _ i e h

/-- Witness for C7 at the concrete one-entry matrix `exMat1`, index 0. -/
theorem C7_boundary_conversion_witness :
    (initState exMat1).a[0]? = some 5 ∧
    (initState exMat1).indc[0]? = some 1 ∧
    (initState exMat1).indr[0]? = some 1 :=
  C7_boundary_conversion exMat1 0 (0, 0, 5) rfl

/-- Claim C8 (amended): construction takes no caller-supplied `lena` hint;
`lena` is computed as max(3 * nnz, 10000), which always satisfies
nnz ≤ lena, so a construction-time failure for `lena` smaller than nnz
cannot arise — construction succeeds whenever the native factorization
reports inform = 0. -/
theorem C8_amended_no_lena_hint (A : CooMatrix) :
    A.entries.length ≤ (initState A).lena ∧
    (∀ f : LUSOLState → LUSOLState × Int, (f (initState A)).2 = 0 →
      (mkLUSOL A f).isOk = true) := by
  constructor
  · show A.entries.length ≤ max (A.entries.length * 3) 10000
    exact le_trans (by omega) (Nat.le_max_left _ _)
  · intro f hf
    simp [mkLUSOL, lusolFactorize, hf, Except.isOk, Except.toBool]

/-- Witness for the amended C8 at the concrete matrix `exMat1` with a
successful native factorization. -/
theorem C8_amended_no_lena_hint_witness :
    exMat1.entries.length ≤ (initState exMat1).lena ∧
    (mkLUSOL exMat1 (fun st => (st, 0))).isOk = true :=
  ⟨(C8_amended_no_lena_hint exMat1).1,
   (C8_amended_no_lena_hint exMat1).2 (fun st => (st, 0)) rfl⟩

/-- Counterexample to claim C8 as stated: `LUSOL.__init__` takes only the
matrix — there is no caller-supplied `lena` parameter.  For the concrete
one-nonzero matrix `exMat1`, construction fixes `lena` to 10000 (never the
requested value, and never below nnz = 1) and succeeds. -/
theorem C8_counterexample :
    exMat1.entries.length = 1 ∧
    (initState exMat1).lena = 10000 ∧
    (mkLUSOL exMat1 (fun st => (st, 0))).isOk = true :=
  ⟨rfl, rfl, rfl⟩

/-- Claim C10: every successfully constructed handle holds a completed
factorization: the returned handle is exactly the post-`clu1fac` state with
inform = 0, and any nonzero factorization status makes construction raise
instead of returning a handle. -/
theorem C10_handle_factorized (A : CooMatrix) (f : LUSOLState → LUSOLState × Int) :
    (∀ st, mkLUSOL A f = Except.ok st → f (initState A) = (st, 0)) ∧
    ((f (initState A)).2 ≠ 0 →
      mkLUSOL A f = Except.error "LU factorization failed with inform nonzero") := by
  constructor
  · intro st hok
    unfold mkLUSOL lusolFactorize at hok
    split at hok
    · cases hok
    · next hzero =>
      have h2 : (f (initState A)).2 = 0 := not_not.mp hzero
      have h1 : (f (initState A)).1 = st := by
        injection hok
      calc f (initState A) = ((f (initState A)).1, (f (initState A)).2) := rfl
        _ = (st, 0) := by rw [h1, h2]
  · intro h
    simp [mkLUSOL, lusolFactorize, h]

/-- Witness for C10 at the concrete matrix `exMat1`: a succeeding native
factorization yields the post-call handle, and a failing one raises. -/
theorem C10_handle_factorized_witness :
    (fun st => (st, (0 : Int))) (initState exMat1) = (initState exMat1, 0) ∧
    mkLUSOL exMat1 (fun st => (st, 1))
      = Except.error "LU factorization failed with inform nonzero" :=
  ⟨(C10_handle_factorized exMat1 (fun st => (st, 0))).1 (initState exMat1) rfl,
   (C10_handle_factorized exMat1 (fun st => (st, 1))).2 (by decide)⟩

/-- Claim C1 (amended): only the update operation `repcol` returns the
native inform status as an explicit value; `_factorize` and `solve` raise an
exception (RuntimeError) whenever the underlying routine reports a nonzero
inform status, instead of returning that status. -/
theorem C1_amended_status_policy :
    (∀ (f : LUSOLState → LUSOLState × Int) (st : LUSOLState), (f st).2 ≠ 0 →
      lusolFactorize f st = Except.error "LU factorization failed with inform nonzero") ∧
    (∀ (st : LUSOLState) (g : Int → List Rat → List Rat → SolOut)
        (b : List Rat) (mode : Int),
      b.length = st.m → (g mode b (List.replicate st.n 0)).inform ≠ 0 →
      lusolSolve st g b mode = Except.error "Solve failed with inform nonzero") ∧
    (∀ (st : LUSOLState) (h : Int → Int → List Rat → Int → RpcOut)
        (v : List Rat) (jrep mode1 mode2 : Int),
      repcol st h v jrep mode1 mode2 = (h mode1 mode2 v jrep).inform) := by
  refine ⟨?_, ?_, ?_⟩
  · intro f st hf
    simp [lusolFactorize, hf]
  · intro st g b mode hb hg
    simp [lusolSolve, hb, hg]
  · intro st h v jrep mode1 mode2
    rfl

/-- Witness for the amended C1 at concrete inputs: a native factorize
reporting inform = 1 raises, a native solve reporting inform = 7 raises, and
`repcol` hands the native inform = 4 back as its return value. -/
theorem C1_amended_status_policy_witness :
    lusolFactorize (fun st => (st, 1)) (testState 2 3)
      = Except.error "LU factorization failed with inform nonzero" ∧
    lusolSolve (testState 2 3) (fun mode v w => { v := v, w := w, inform := 7 }) [1, 2] 5
      = Except.error "Solve failed with inform nonzero" ∧
    repcol (testState 2 3) (fun _ _ _ _ => { inform := 4, diag := 1, vnorm := 2 }) [1] 1 2 2
      = 4 :=
  ⟨C1_amended_status_policy.1 (fun st => (st, 1)) (testState 2 3) (by decide),
   C1_amended_status_policy.2.1 (testState 2 3)
     (fun mode v w => { v := v, w := w, inform := 7 }) [1, 2] 5 rfl (by decide),
   C1_amended_status_policy.2.2 (testState 2 3)
     (fun _ _ _ _ => { inform := 4, diag := 1, vnorm := 2 }) [1] 1 2 2⟩

/-- Counterexample to claim C1 as stated: at concrete inputs where the
underlying routine reports a nonzero inform status, `_factorize` and `solve`
both raise (modelled as `Except.error`) instead of returning the status. -/
theorem C1_counterexample :
    lusolFactorize (fun st => (st, 3)) (testState 2 3)
      = Except.error "LU factorization failed with inform nonzero" ∧
    lusolSolve (testState 2 3) (fun mode v w => { v := v, w := w, inform := 3 }) [1, 2] 5
      = Except.error "Solve failed with inform nonzero" :=
  ⟨rfl, rfl⟩

/-- Claim C3 (amended): for every mode, `solve` rejects the call before
invoking the native solver exactly when the right-hand side's length differs
from the row dimension m; the check does not depend on the mode, so it is
not the mode-appropriate dimension of the spec's mode table. -/
theorem C3_amended_dim_check (st : LUSOLState) (b : List Rat) (mode : Int) :
    (b.length ≠ st.m → ∀ g, lusolSolve st g b mode
        = Except.error "RHS vector size does not match matrix rows") ∧
    (b.length = st.m → ∀ g, lusolSolve st g b mode
        ≠ Except.error "RHS vector size does not match matrix rows") := by
  constructor
  · intro hb g
    simp [lusolSolve, hb]
  · intro hb g
    unfold lusolSolve
    rw [if_neg (by simp [hb])]
    split
    · intro hcontra
      have := Except.error.inj hcontra
      exact absurd this (by decide)
    · simp

/-- Witness for the amended C3: a length-4 vector against a 2-row state is
rejected before the native solver is consulted. -/
theorem C3_amended_dim_check_witness :
    lusolSolve (testState 2 3) okSolOracle [1, 2, 3, 4] 1
      = Except.error "RHS vector size does not match matrix rows" :=
  (C3_amended_dim_check (testState 2 3) [1, 2, 3, 4] 1).1 (by decide) okSolOracle

/-- Counterexample to claim C3 as stated: for a 2-by-3 state and mode 6
(solve Aᵀx = b), the spec's mode-appropriate dimension is n = 3, yet `solve`
rejects the length-3 vector because its check compares against m = 2 for
every mode. -/
theorem C3_counterexample :
    specRequiredDim 2 3 6 = 3 ∧
    lusolSolve (testState 2 3) okSolOracle [1, 2, 3] 6
      = Except.error "RHS vector size does not match matrix rows" := by
  refine ⟨by decide, rfl⟩

/-- Claim C4: whenever the dimension check passes and the native solve
reports inform = 0, `solve` with mode 5 or 6 returns the `w` buffer (the
unpermuted solution of length n), while modes 1, 2, 3 and 4 return the
overwritten `v` work buffer. -/
theorem C4_returned_buffer (st : LUSOLState) (g : Int → List Rat → List Rat → SolOut)
    (b : List Rat) (mode : Int)
    (hb : b.length = st.m)
    (hw : (g mode b (List.replicate st.n 0)).w.length = st.n)
    (hinf : (g mode b (List.replicate st.n 0)).inform = 0) :
    ((mode = 5 ∨ mode = 6) →
      lusolSolve st g b mode = Except.ok (g mode b (List.replicate st.n 0)).w ∧
      ∀ x, lusolSolve st g b mode = Except.ok x → x.length = st.n) ∧
    ((mode = 1 ∨ mode = 2 ∨ mode = 3 ∨ mode = 4) →
      lusolSolve st g b mode = Except.ok (g mode b (List.replicate st.n 0)).v) := by
  constructor
  · intro hm
    have heq : lusolSolve st g b mode = Except.ok (g mode b (List.replicate st.n 0)).w := by
      simp [lusolSolve, hb, hinf, hm]
    refine ⟨heq, ?_⟩
    intro x hx
    rw [heq] at hx
    have := Except.ok.inj hx
    rw [← this]
    exact hw
  · intro hm
    have hm' : ¬ (mode = 5 ∨ mode = 6) := by omega
    simp [lusolSolve, hb, hinf, hm']

/-- Witness for C4: with a trivial succeeding native solve, mode 5 returns
the zeroed `w` buffer of length n = 3 and mode 1 returns the `v` buffer
holding the right-hand side. -/
theorem C4_returned_buffer_witness :
    lusolSolve (testState 2 3) okSolOracle [1, 2] 5
      = Except.ok (List.replicate 3 (0 : Rat)) ∧
    lusolSolve (testState 2 3) okSolOracle [1, 2] 1 = Except.ok [1, 2] :=
  ⟨((C4_returned_buffer (testState 2 3) okSolOracle [1, 2] 5 rfl rfl rfl).1
      (Or.inl rfl)).1,
   (C4_returned_buffer (testState 2 3) okSolOracle [1, 2] 1 rfl rfl rfl).2
      (Or.inl rfl)⟩

/-- Claim C5 (amended): `repcol` returns only the status code; the new
diagonal and the eliminated-column norm written by the native routine are
discarded, so the return value coincides for any two native behaviours that
agree on inform alone. -/
theorem C5_amended_repcol_status_only :
    (∀ (st : LUSOLState) (h : Int → Int → List Rat → Int → RpcOut)
        (v : List Rat) (jrep mode1 mode2 : Int),
      repcol st h v jrep mode1 mode2 = (h mode1 mode2 v jrep).inform) ∧
    (∀ (st st' : LUSOLState) (h h' : Int → Int → List Rat → Int → RpcOut)
        (v : List Rat) (jrep mode1 mode2 : Int),
      (h mode1 mode2 v jrep).inform = (h' mode1 mode2 v jrep).inform →
      repcol st h v jrep mode1 mode2 = repcol st' h' v jrep mode1 mode2) := by
  constructor
  · intro st h v jrep mode1 mode2
    rfl
  · intro st st' h h' v jrep mode1 mode2 hagree
    exact hagree

/-- Witness for the amended C5: two native behaviours with the same inform
but different diag/vnorm produce the same `repcol` return value. -/
theorem C5_amended_repcol_status_only_witness :
    repcol (testState 2 3) (fun _ _ _ _ => { inform := 4, diag := 1, vnorm := 2 }) [1] 1 2 2
      = repcol (testState 2 3) (fun _ _ _ _ => { inform := 4, diag := 8, vnorm := 9 }) [1] 1 2 2 :=
  C5_amended_repcol_status_only.2 (testState 2 3) (testState 2 3)
    (fun _ _ _ _ => { inform := 4, diag := 1, vnorm := 2 })
    (fun _ _ _ _ => { inform := 4, diag := 8, vnorm := 9 }) [1] 1 2 2 rfl

/-- Counterexample to claim C5 as stated: at a concrete successful
replacement the caller receives only the status code 0, and changing the
native diag/vnorm diagnostics leaves the returned value identical — the
diagnostics are not returned to the caller. -/
theorem C5_counterexample :
    repcol (testState 2 3) (fun _ _ _ _ => { inform := 0, diag := 3, vnorm := 7 }) [1] 1 2 2
      = 0 ∧
    repcol (testState 2 3) (fun _ _ _ _ => { inform := 0, diag := 3, vnorm := 7 }) [1] 1 2 2
      = repcol (testState 2 3) (fun _ _ _ _ => { inform := 0, diag := 99, vnorm := 55 }) [1] 1 2 2 :=
  ⟨rfl, rfl⟩

/-- Claim C6: the statistics query returns exactly the four diagnostic
fields — element count `luparm[11]`, rank estimate `luparm[15]`, singularity
count `luparm[10]`, growth factor `parmlu[15]` — read from the control
block, and leaves every field of the handle unchanged. -/
theorem C6_get_stats_frame (st : LUSOLState) :
    get_stats_call st =
      ({ nelem := st.luparm.getD 11 0
         nrank := st.luparm.getD 15 0
         nsing := st.luparm.getD 10 0
         growth := st.parmlu.getD 15 0 }, st) :=
  rfl

/-- Claim C9: `mulA` produces a vector of length m for mode 1 and of length
n for mode 2 (given that the native routine writes its buffers in place,
preserving their lengths), and the multiply path has no inform output at
all: the `clu6mul` argument list, unlike `clu6sol`'s, contains no inform
slot, and `mulA` returns only the `w` buffer with no status and no
exception. -/
theorem C9_mulA_no_status (st : LUSOLState)
    (g : Int → List Rat → List Rat → List Rat × List Rat) (x : List Rat) (mode : Int)
    (hg : ∀ md v w, (g md v w).2.length = w.length) :
    (mode = 1 → (mulA st g x mode).length = st.m) ∧
    (mode = 2 → (mulA st g x mode).length = st.n) ∧
    "inform" ∉ clu6mul_argtypes ∧ "inform" ∈ clu6sol_argtypes := by
  refine ⟨?_, ?_, by decide, by decide⟩
  · intro h1
    subst h1
    simp [mulA, hg]
  · intro h2
    subst h2
    simp [mulA, hg]

/-- Witness for C9: with an identity-like native multiply, mode 1 yields a
length-2 result and mode 2 a length-3 result on the 2-by-3 fixture. -/
theorem C9_mulA_no_status_witness :
    (mulA (testState 2 3) (fun _ v w => (v, w)) [1, 2, 3] 1).length = 2 ∧
    (mulA (testState 2 3) (fun _ v w => (v, w)) [1, 2, 3] 2).length = 3 :=
  ⟨(C9_mulA_no_status (testState 2 3) (fun _ v w => (v, w)) [1, 2, 3] 1
      (fun _ _ _ => rfl)).1 rfl,
   (C9_mulA_no_status (testState 2 3) (fun _ v w => (v, w)) [1, 2, 3] 2
      (fun _ _ _ => rfl)).2.1 rfl⟩
